import Mathlib

/-!
# Verification of the patient identity resolution engine

Shallow embedding of `resolvePatientIds` and `resolvePatientIdsCached`
(source: `utils/patient-id-resolver.js`) together with proofs of the
spec's claims about them.

The external Firestore `patients` collection is modelled as a pure list
of documents (`ChartStore`); each of the resolver's external lookups can
independently fail, which is modelled by a `Faults` record: a `true`
field means that lookup throws.  A thrown lookup aborts the remaining
lookups of the same `try` block (exactly as the source's `try/catch`
blocks do) but never aborts another block.
-/

namespace PatientResolver

/-- A caller profile, as consumed by the resolver.  The source reads
`profile?.role`, `profile?.patientId` and `profile?.phone`; every field
is optional (`none` models both a missing field and a missing profile). -/
structure Profile where
  role : Option String
  patientId : Option String
  phone : Option String
deriving Repr, DecidableEq

/-- The data of one document in the Firestore `patients` collection, as
read by the resolver: the `userId` field (auth-provider id of the linked
patient), the field literally named `id` (a secondary owner-id field),
and the `phone` field. -/
structure ChartData where
  userId : Option String
  idField : Option String
  phone : Option String
deriving Repr, DecidableEq

/-- The `patients` collection: a list of (document id, document data)
pairs, in store order (Firestore query order is irrelevant to the
claims; list order stands in for it). -/
structure ChartStore where
  docs : List (String × ChartData)
deriving Repr, DecidableEq

/-- `admin.firestore().collection('patients').doc(d).get()`:
point lookup by document id. -/
def ChartStore.getDoc (s : ChartStore) (d : String) : Option ChartData :=
  (s.docs.find? (fun p => p.1 == d)).map (·.2)

/-- `.where('userId', '==', v).limit(n).get()`. -/
def ChartStore.whereUserId (s : ChartStore) (v : String) (n : Nat) :
    List (String × ChartData) :=
  (s.docs.filter (fun p => p.2.userId == some v)).take n

/-- `.where('id', '==', v).limit(n).get()`. -/
def ChartStore.whereIdField (s : ChartStore) (v : String) (n : Nat) :
    List (String × ChartData) :=
  (s.docs.filter (fun p => p.2.idField == some v)).take n

/-- `.where('phone', '==', v).limit(n).get()`. -/
def ChartStore.wherePhone (s : ChartStore) (v : String) (n : Nat) :
    List (String × ChartData) :=
  (s.docs.filter (fun p => p.2.phone == some v)).take n

/-- Which of the resolver's external lookups throw, one flag per lookup,
named after the source's strategy labels (1b, 2a0, 2a, 2b, 2c, 3). -/
structure Faults where
  phoneLookup : Bool
  s2a0 : Bool
  s2a : Bool
  s2b : Bool
  s2cDoc : Bool
  s2cId : Bool
  s2cUid : Bool
  s3Doc : Bool
  s3Id : Bool
  s3Uid : Bool
deriving Repr, DecidableEq

/-- All lookups succeed. -/
def noFaults : Faults :=
  ⟨false, false, false, false, false, false, false, false, false, false⟩

/-- JS `String.prototype.toLowerCase()`, modelled characterwise. -/
def jsToLower (s : String) : String :=
  String.mk (s.data.map Char.toLower)

/-- JS `String.prototype.trim()`: strip leading and trailing whitespace. -/
def jsTrim (s : String) : String :=
  String.mk (((s.data.dropWhile Char.isWhitespace).reverse.dropWhile
    Char.isWhitespace).reverse)

/-- `patientIds.add(x)` on a JS `Set` (insertion order preserved,
duplicate adds are no-ops). -/
def addId (ids : List String) (x : String) : List String :=
  if x ∈ ids then ids else ids ++ [x]

/-- Add a whole list of ids in order. -/
def addAll (ids : List String) (xs : List String) : List String :=
  xs.foldl addId ids

/-- `profile?.role?.toString?.().toLowerCase?.() === 'patient'`. -/
def isPatientProfile (profile : Profile) : Bool :=
  match profile.role with
  | some r => jsToLower r == "patient"
  | none => false

/-- JS: accessing the `isNotEmpty` property of a string.  JavaScript
strings have no such property, so the access yields `undefined`
(modelled as `none`); the source inherited `isNotEmpty` from Dart. -/
def stringIsNotEmptyProp (_s : String) : Option Bool :=
  none

/-- The Strategy 1b guard
`profile?.phone?.toString().trim().isNotEmpty == true`:
loose equality of the (undefined) property with `true`. -/
def phoneGuard (profile : Profile) : Bool :=
  match profile.phone with
  | some p => (stringIsNotEmptyProp (jsTrim p)).getD false
  | none => false

/-- Strategy 1b body: ids added by the phone lookup
(`where('phone','==',phone).limit(5)`), empty if the lookup throws. -/
def phoneLookupIds (store : ChartStore) (phone : String) (fail : Bool) :
    List String :=
  if fail then [] else (store.wherePhone phone 5).map (·.1)

/-- Strategies 2a0 / 2a / 2b (one `try` block): ids added by the
self-access lookups, truncated at the first throwing lookup. -/
def selfAccessIds (store : ChartStore) (requestedId : String)
    (f2a0 f2a f2b : Bool) : List String :=
  if f2a0 then [] else
  let l1 := (store.whereIdField requestedId 5).map (·.1)
  if f2a then l1 else
  let l2 := l1 ++ (store.whereUserId requestedId 5).map (·.1)
  if f2b then l2 else
  match store.getDoc requestedId with
  | none => l2
  | some d =>
    l2 ++ [requestedId] ++
      (match d.userId with
       | some u => if u != "" && u != requestedId then [u] else []
       | none => [])

/-- Strategy 2c (one `try` block): ids added by the cross-reference
lookups of a patient requesting a non-self id, truncated at the first
throwing lookup.  The two uid-keyed searches only run when `userUid` is
truthy. -/
def crossRefIds (store : ChartStore) (requestedId userUid : String)
    (fDoc fId fUid : Bool) : List String :=
  if fDoc then [] else
  let l1 := match store.getDoc requestedId with
    | some d =>
      (match d.userId with
       | some u => if u != "" then [u] else []
       | none => [])
    | none => []
  if userUid == "" then l1 else
  if fId then l1 else
  let l2 := l1 ++ (store.whereIdField userUid 5).map (·.1)
  if fUid then l2 else
  l2 ++ (store.whereUserId userUid 5).map (·.1)

/-- Strategy 3 (one `try` block): ids added by the staff lookups,
truncated at the first throwing lookup.  When the chart document with
id `requestedId` exists, only its `userId` is considered; otherwise the
two limit-1 searches run. -/
def staffLookupIds (store : ChartStore) (requestedId : String)
    (fDoc fId fUid : Bool) : List String :=
  if fDoc then [] else
  match store.getDoc requestedId with
  | some d =>
    (match d.userId with
     | some u => if u != "" then [u] else []
     | none => [])
  | none =>
    if fId then [] else
    let l1 := match store.whereIdField requestedId 1 with
      | [] => []
      | (docId, _) :: _ => [docId]
    if fUid then l1 else
    l1 ++
      (match store.whereUserId requestedId 1 with
       | [] => []
       | (docId, _) :: _ => [docId])

/-- `resolvePatientIds({ requestedId, userUid, profile })`, with the
chart store and the per-lookup fault record made explicit. -/
def resolvePatientIds (requestedId userUid : String) (profile : Profile)
    (store : ChartStore) (f : Faults) : List String :=
  let isPatient := isPatientProfile profile
  let isSelfAccess := userUid == requestedId
  let ids := addId [] requestedId
  let ids := if isPatient && userUid != "" then addId ids userUid else ids
  let ids := match profile.patientId with
    | some p => if p != "" && jsTrim p != "" then addId ids (jsTrim p) else ids
    | none => ids
  let ids := if isPatient && phoneGuard profile then
      addAll ids (phoneLookupIds store (jsTrim (profile.phone.getD "")) f.phoneLookup)
    else ids
  let ids := if isPatient && isSelfAccess then
      addAll ids (selfAccessIds store requestedId f.s2a0 f.s2a f.s2b)
    else ids
  let ids := if isPatient && !isSelfAccess && requestedId != "" then
      addAll ids (crossRefIds store requestedId userUid f.s2cDoc f.s2cId f.s2cUid)
    else ids
  let ids := if !isPatient && requestedId != "" then
      addAll ids (staffLookupIds store requestedId f.s3Doc f.s3Id f.s3Uid)
    else ids
  ids.filter (fun id => id != "" && jsTrim id != "")

/-! ## The resolution cache -/

/-- `CACHE_TTL = 5 * 60 * 1000` (milliseconds). -/
def CACHE_TTL : Int := 5 * 60 * 1000

/-- One cache entry: `{ ids, timestamp }`. -/
structure CacheEntry where
  ids : List String
  timestamp : Int
deriving Repr, DecidableEq

/-- The module-level `Map`, modelled as an association list with unique
keys in insertion order. -/
abbrev Cache := List (String × CacheEntry)

/-- `` `${userUid}:${requestedId}` ``. -/
def cacheKey (userUid requestedId : String) : String :=
  userUid ++ ":" ++ requestedId

/-- `Map.get`. -/
def cacheGet (c : Cache) (k : String) : Option CacheEntry :=
  (c.find? (fun p => p.1 == k)).map (·.2)

/-- `Map.set`: replace in place when the key exists, else append. -/
def cacheSet (c : Cache) (k : String) (v : CacheEntry) : Cache :=
  if c.any (fun p => p.1 == k) then
    c.map (fun p => if p.1 == k then (k, v) else p)
  else c ++ [(k, v)]

/-- The eviction sweep: delete every entry with `now - timestamp > CACHE_TTL`. -/
def cacheSweep (c : Cache) (now : Int) : Cache :=
  c.filter (fun p => !(now - p.2.timestamp > CACHE_TTL))

/-- `resolvePatientIdsCached`, with the current time explicit and the
cache threaded as state.  Returns the resolved ids, the cache after the
call, and whether the underlying resolver was invoked. -/
def resolvePatientIdsCached (requestedId userUid : String) (profile : Profile)
    (store : ChartStore) (f : Faults) (cache : Cache) (now : Int) :
    List String × Cache × Bool :=
  let key := cacheKey userUid requestedId
  match cacheGet cache key with
  | some entry =>
    if now - entry.timestamp < CACHE_TTL then (entry.ids, cache, false)
    else
      let ids := resolvePatientIds requestedId userUid profile store f
      let c1 := cacheSet cache key ⟨ids, now⟩
      let c2 := if c1.length > 1000 then cacheSweep c1 now else c1
      (ids, c2, true)
  | none =>
    let ids := resolvePatientIds requestedId userUid profile store f
    let c1 := cacheSet cache key ⟨ids, now⟩
    let c2 := if c1.length > 1000 then cacheSweep c1 now else c1
    (ids, c2, true)

/-! ## Concrete fixtures used by scenario checks -/

/-- The all-absent profile. -/
def emptyProfile : Profile := ⟨none, none, none⟩

/-- A plain patient profile (role only). -/
def patientProfile : Profile := ⟨some "patient", none, none⟩

/-- A doctor profile. -/
def doctorProfile : Profile := ⟨some "doctor", none, none⟩

/-- The empty chart store. -/
def emptyStore : ChartStore := ⟨[]⟩

end PatientResolver

namespace PatientResolver

/-! ## Helper lemmas -/

theorem mem_addId {ids : List String} {y x : String} :
    x ∈ addId ids y ↔ x ∈ ids ∨ x = y := by
  by_cases h : y ∈ ids
  · simp only [addId, if_pos h]
    constructor
    · exact Or.inl
    · rintro (hx | rfl)
      · exact hx
      · exact h
  · simp [addId, h, List.mem_append]

theorem mem_addAll {xs ids : List String} {x : String} :
    x ∈ addAll ids xs ↔ x ∈ ids ∨ x ∈ xs := by
  induction xs generalizing ids with
  | nil => simp [addAll]
  | cons y ys ih =>
    have h : addAll ids (y :: ys) = addAll (addId ids y) ys := rfl
    rw [h, ih, mem_addId]
    simp only [List.mem_cons]
    tauto

/-- The Strategy 1b guard is identically false: JS strings have no
`isNotEmpty` property, so `… .trim().isNotEmpty == true` never holds. -/
theorem phoneGuard_eq_false (p : Profile) : phoneGuard p = false := by
  unfold phoneGuard stringIsNotEmptyProp
  cases p.phone <;> rfl

/-- Membership decomposition for `resolvePatientIds`: an id is in the
result iff one of the input-derived rules or one of the (independently
fault-truncated) lookup blocks produced it, and it is non-blank.  Each
block's contribution depends only on that block's own fault flags. -/
theorem mem_resolvePatientIds {r u : String} {p : Profile} {s : ChartStore}
    {f : Faults} {x : String} :
    x ∈ resolvePatientIds r u p s f ↔
      (x = r
       ∨ (isPatientProfile p = true ∧ u ≠ "" ∧ x = u)
       ∨ (∃ pid, p.patientId = some pid ∧ pid ≠ "" ∧ jsTrim pid ≠ "" ∧
            x = jsTrim pid)
       ∨ (isPatientProfile p = true ∧ u = r ∧
            x ∈ selfAccessIds s r f.s2a0 f.s2a f.s2b)
       ∨ (isPatientProfile p = true ∧ u ≠ r ∧ r ≠ "" ∧
            x ∈ crossRefIds s r u f.s2cDoc f.s2cId f.s2cUid)
       ∨ (isPatientProfile p = false ∧ r ≠ "" ∧
            x ∈ staffLookupIds s r f.s3Doc f.s3Id f.s3Uid))
      ∧ x ≠ "" ∧ jsTrim x ≠ "" := by
  cases hpid : p.patientId with
  | none =>
    rcases eq_or_ne u r with rfl | hur
    · cases hpt : isPatientProfile p <;>
      by_cases hu : u = "" <;>
      simp [resolvePatientIds, hpid, hpt, hu, phoneGuard_eq_false,
        mem_addAll, mem_addId, List.mem_filter]
    · cases hpt : isPatientProfile p <;>
      by_cases hu : u = "" <;>
      by_cases hr : r = "" <;>
      first
      | (subst hu; subst hr; exact absurd rfl hur)
      | (simp [resolvePatientIds, hpid, hpt, hu, hr, hur,
          phoneGuard_eq_false, mem_addAll, mem_addId, List.mem_filter] <;>
         simp_all [mem_addAll, mem_addId] <;> tauto)
  | some pid =>
    rcases eq_or_ne u r with rfl | hur
    · cases hpt : isPatientProfile p <;>
      by_cases hu : u = "" <;>
      by_cases hp1 : pid = "" <;>
      by_cases hp2 : jsTrim pid = "" <;>
      simp [resolvePatientIds, hpid, hpt, hu, hp1, hp2, phoneGuard_eq_false,
        mem_addAll, mem_addId, List.mem_filter] <;> tauto
    · cases hpt : isPatientProfile p <;>
      by_cases hu : u = "" <;>
      by_cases hr : r = "" <;>
      by_cases hp1 : pid = "" <;>
      by_cases hp2 : jsTrim pid = "" <;>
      first
      | (subst hu; subst hr; exact absurd rfl hur)
      | (simp [resolvePatientIds, hpid, hpt, hu, hr, hur, hp1, hp2,
          phoneGuard_eq_false, mem_addAll, mem_addId, List.mem_filter] <;>
         simp_all [mem_addAll, mem_addId] <;> tauto)

/-- Every lookup throws. -/
def allFaults : Faults :=
  ⟨true, true, true, true, true, true, true, true, true, true⟩

/-- `jsTrim` of the empty string. -/
theorem jsTrim_empty : jsTrim "" = "" := by decide

/-! ## Claim C1 -/

/-- Fixture for C1: a patient whose profile carries phone `"0917"`. -/
def c1Profile : Profile := ⟨some "patient", none, some "0917"⟩

/-- Fixture for C1: the store holds one chart `"C7"` with phone `"0917"`. -/
def c1Store : ChartStore := ⟨[("C7", ⟨none, none, some "0917"⟩)]⟩

/-- C1: the spec's phone fallback never happens.  The guard
`profile?.phone?.toString().trim().isNotEmpty == true` is identically
false (`isNotEmpty` does not exist on JS strings), so even for a patient
caller with a non-blank phone and a chart whose `phone` field matches,
the matching chart's id is not added: the result is just the seed. -/
theorem c1_phone_fallback_never_runs :
    (∀ p : Profile, phoneGuard p = false) ∧
    resolvePatientIds "U1" "U1" c1Profile c1Store noFaults = ["U1"] ∧
    "C7" ∉ resolvePatientIds "U1" "U1" c1Profile c1Store noFaults :=
  ⟨phoneGuard_eq_false, by decide, by decide⟩

/-! ## Claim C2 -/

/-- C2 counterexample: with a blank `requestedId` and nothing else to
add, the result of `resolve` is the empty set — it does not "always
contain at least `requestedId`". -/
theorem c2_counterexample :
    resolvePatientIds "" "" emptyProfile emptyStore noFaults = [] := by
  decide

/-- C2 amended: the result contains `requestedId` whenever `requestedId`
is non-blank (so it is non-empty then); a blank `requestedId` is seeded
but filtered out at the end, and the result can then be empty. -/
theorem c2_contains_requested_of_nonblank
    (r u : String) (p : Profile) (s : ChartStore) (f : Faults)
    (h : jsTrim r ≠ "") : r ∈ resolvePatientIds r u p s f := by
  rw [mem_resolvePatientIds]
  exact ⟨Or.inl rfl, fun hr => h (by rw [hr]; exact jsTrim_empty), h⟩

/-- C2 witness: the amended theorem at a concrete non-blank input. -/
theorem c2_witness :
    jsTrim "U1" ≠ "" ∧
    "U1" ∈ resolvePatientIds "U1" "" emptyProfile emptyStore noFaults :=
  ⟨by decide,
   c2_contains_requested_of_nonblank "U1" "" emptyProfile emptyStore noFaults
     (by decide)⟩

/-! ## Claim C3 -/

/-- C3 counterexample: for `requestedId = " x "` (non-blank) the result
is the untrimmed `" x "`; the trimmed `"x"` is not in the result, so
"contains the trimmed `requestedId`" fails on the code. -/
theorem c3_counterexample :
    resolvePatientIds " x " "" emptyProfile emptyStore noFaults = [" x "] ∧
    "x" ∉ resolvePatientIds " x " "" emptyProfile emptyStore noFaults :=
  ⟨by decide, by decide⟩

/-- C3 amended: the result contains `requestedId` exactly as given
(untrimmed) whenever it is non-blank, and no element of the result is an
empty or whitespace-only string. -/
theorem c3_untrimmed_requested_and_no_blanks
    (r u : String) (p : Profile) (s : ChartStore) (f : Faults) :
    (jsTrim r ≠ "" → r ∈ resolvePatientIds r u p s f) ∧
    (∀ x ∈ resolvePatientIds r u p s f, x ≠ "" ∧ jsTrim x ≠ "") := by
  constructor
  · intro h
    rw [mem_resolvePatientIds]
    exact ⟨Or.inl rfl, fun hr => h (by rw [hr]; exact jsTrim_empty), h⟩
  · intro x hx
    exact (mem_resolvePatientIds.mp hx).2

/-- C3 witness: the amended theorem at a concrete input. -/
theorem c3_witness :
    "U1" ∈ resolvePatientIds "U1" "" emptyProfile emptyStore noFaults ∧
    ("U1" ≠ "" ∧ jsTrim "U1" ≠ "") :=
  ⟨(c3_untrimmed_requested_and_no_blanks "U1" "" emptyProfile emptyStore
      noFaults).1 (by decide),
   (c3_untrimmed_requested_and_no_blanks "U1" "" emptyProfile emptyStore
      noFaults).2 "U1"
     ((c3_untrimmed_requested_and_no_blanks "U1" "" emptyProfile emptyStore
        noFaults).1 (by decide))⟩

/-! ## Claim C4 -/

/-- C4: for a patient caller with a non-blank auth uid, the result
contains the uid for every fault configuration — in particular when
every external lookup fails. -/
theorem c4_patient_uid_always_included
    (r u : String) (p : Profile) (s : ChartStore) (f : Faults)
    (hrole : isPatientProfile p = true) (hu : jsTrim u ≠ "") :
    u ∈ resolvePatientIds r u p s f := by
  have hu0 : u ≠ "" := fun h => hu (by rw [h]; exact jsTrim_empty)
  rw [mem_resolvePatientIds]
  exact ⟨Or.inr (Or.inl ⟨hrole, hu0, rfl⟩), hu0, hu⟩

/-- C4 witness: a patient caller under a total store outage (every
lookup faulted) still gets the uid back. -/
theorem c4_witness :
    isPatientProfile patientProfile = true ∧ jsTrim "U1" ≠ "" ∧
    "U1" ∈ resolvePatientIds "C1" "U1" patientProfile emptyStore allFaults :=
  ⟨by decide, by decide,
   c4_patient_uid_always_included "C1" "U1" patientProfile emptyStore allFaults
     (by decide) (by decide)⟩

/-! ## Claim C5 -/

/-- Fixture for C5: one chart `"C2"` linked to `"U1"` via `userId`. -/
def c5Store : ChartStore := ⟨[("C2", ⟨some "U1", none, none⟩)]⟩

/-- Fixture for C5: only the first self-access lookup (strategy 2a0)
throws; every other lookup succeeds. -/
def c5Faults : Faults :=
  ⟨false, true, false, false, false, false, false, false, false, false⟩

/-- C5 counterexample: lookups are wrapped per `try` block, not
individually.  With only the first self-access lookup failing, the
non-failing `userId` lookup of the same block is never attempted, so
`"C2"` (which it would find, as the fault-free run shows) is missing
from the result. -/
theorem c5_counterexample :
    resolvePatientIds "U1" "U1" patientProfile c5Store c5Faults = ["U1"] ∧
    resolvePatientIds "U1" "U1" patientProfile c5Store noFaults =
      ["U1", "C2"] :=
  ⟨by decide, by decide⟩

/-- C5 amended: error wrapping is per strategy block.  Membership in the
result decomposes into the input-derived rules plus one contribution per
block, where each block's contribution depends only on that block's own
fault flags — so a failure in one block never affects the ids found by
the other blocks, while within a block a failure truncates the block's
remaining lookups. -/
theorem c5_block_level_error_wrapping
    (r u : String) (p : Profile) (s : ChartStore) (f : Faults) (x : String) :
    x ∈ resolvePatientIds r u p s f ↔
      (x = r
       ∨ (isPatientProfile p = true ∧ u ≠ "" ∧ x = u)
       ∨ (∃ pid, p.patientId = some pid ∧ pid ≠ "" ∧ jsTrim pid ≠ "" ∧
            x = jsTrim pid)
       ∨ (isPatientProfile p = true ∧ u = r ∧
            x ∈ selfAccessIds s r f.s2a0 f.s2a f.s2b)
       ∨ (isPatientProfile p = true ∧ u ≠ r ∧ r ≠ "" ∧
            x ∈ crossRefIds s r u f.s2cDoc f.s2cId f.s2cUid)
       ∨ (isPatientProfile p = false ∧ r ≠ "" ∧
            x ∈ staffLookupIds s r f.s3Doc f.s3Id f.s3Uid))
      ∧ x ≠ "" ∧ jsTrim x ≠ "" :=
  mem_resolvePatientIds

/-! ## Claim C6 -/

/-- The ids a chart's `userId` field contributes when truthy. -/
def userIdList (d : ChartData) : List String :=
  match d.userId with
  | some uid => if uid != "" then [uid] else []
  | none => []

/-- The document id of the first result of a limit-1 search, if any. -/
def firstDocId : List (String × ChartData) → List String
  | [] => []
  | (docId, _) :: _ => [docId]

theorem staffLookupIds_doc_exists {s : ChartStore} {r : String}
    {d : ChartData} (h : s.getDoc r = some d) (b1 b2 : Bool) :
    staffLookupIds s r false b1 b2 = userIdList d := by
  unfold staffLookupIds userIdList
  simp [h]

theorem staffLookupIds_doc_missing {s : ChartStore} {r : String}
    (h : s.getDoc r = none) :
    staffLookupIds s r false false false =
      firstDocId (s.whereIdField r 1) ++ firstDocId (s.whereUserId r 1) := by
  unfold staffLookupIds firstDocId
  simp [h]

/-- Fixture for C6: no chart has document id `"U1"`, but chart `"C9"`
has `userId = "U1"`. -/
def c6Store : ChartStore := ⟨[("C9", ⟨some "U1", none, none⟩)]⟩

/-- C6: staff lookups.  For a non-patient caller with a non-blank
`requestedId` (staff-block lookups succeeding): when the chart with that
document id exists, the staff block contributes exactly the chart's
truthy `userId` — for every outcome of the two searches, i.e. they are
not consulted — and that `userId` is in the result; when it does not
exist, the block contributes the limit-1 secondary-owner-id and
`authUserId` search results, which are in the result.  The doctor
scenario returns exactly `["U1", "C9"]`. -/
theorem c6_staff_lookups
    (r u : String) (p : Profile) (s : ChartStore) (f : Faults)
    (hrole : isPatientProfile p = false) (hr : r ≠ "")
    (hfd : f.s3Doc = false) (hfi : f.s3Id = false) (hfu : f.s3Uid = false) :
    ((∀ d, s.getDoc r = some d →
       (∀ b1 b2 : Bool, staffLookupIds s r false b1 b2 = userIdList d) ∧
       (∀ uid, d.userId = some uid → uid ≠ "" → jsTrim uid ≠ "" →
          uid ∈ resolvePatientIds r u p s f)) ∧
     (s.getDoc r = none →
       staffLookupIds s r false false false =
         firstDocId (s.whereIdField r 1) ++ firstDocId (s.whereUserId r 1) ∧
       (∀ y, y ∈ firstDocId (s.whereIdField r 1) ++
              firstDocId (s.whereUserId r 1) →
          y ≠ "" → jsTrim y ≠ "" → y ∈ resolvePatientIds r u p s f))) ∧
    resolvePatientIds "U1" "D7" doctorProfile c6Store noFaults =
      ["U1", "C9"] := by
  refine ⟨⟨?_, ?_⟩, by decide⟩
  · intro d hd
    refine ⟨staffLookupIds_doc_exists hd, ?_⟩
    intro uid huid hne htrim
    rw [mem_resolvePatientIds]
    refine ⟨Or.inr (Or.inr (Or.inr (Or.inr (Or.inr ⟨hrole, hr, ?_⟩)))),
      hne, htrim⟩
    rw [hfd, staffLookupIds_doc_exists hd]
    simp [userIdList, huid, hne]
  · intro hd
    refine ⟨staffLookupIds_doc_missing hd, ?_⟩
    intro y hy hne htrim
    rw [mem_resolvePatientIds]
    refine ⟨Or.inr (Or.inr (Or.inr (Or.inr (Or.inr ⟨hrole, hr, ?_⟩)))),
      hne, htrim⟩
    rw [hfd, hfi, hfu, staffLookupIds_doc_missing hd]
    exact hy

/-- C6 witness: the theorem at the doctor scenario. -/
theorem c6_witness :
    resolvePatientIds "U1" "D7" doctorProfile c6Store noFaults =
      ["U1", "C9"] :=
  (c6_staff_lookups "U1" "D7" doctorProfile c6Store noFaults (by decide)
    (by decide) rfl rfl rfl).2

/-! ## Claim C7 -/

theorem mem_crossRefIds_of_doc {s : ChartStore} {r u : String}
    {d : ChartData} {uid : String} (h : s.getDoc r = some d)
    (huid : d.userId = some uid) (hne : uid ≠ "") (fId fUid : Bool) :
    uid ∈ crossRefIds s r u false fId fUid := by
  unfold crossRefIds
  simp only [if_neg (by simp : ¬(false = true)), h, huid,
    if_pos (bne_iff_ne.mpr hne)]
  split_ifs <;> simp [List.mem_append, userIdList, huid, hne]

/-- Fixture for C7: chart `"C1"` has `userId = "U1"`. -/
def c7Store : ChartStore := ⟨[("C1", ⟨some "U1", none, none⟩)]⟩

/-- C7: cross-reference for a patient requesting a non-self id.  When
the chart with document id `requestedId` exists and carries a truthy
`authUserId`, that auth id is in the result; and in the concrete
scenario (patient `"U1"` requesting chart `"C1"` linked to `"U1"`) the
result is exactly `["C1", "U1"]`. -/
theorem c7_cross_reference
    (r u : String) (p : Profile) (s : ChartStore) (f : Faults)
    (hrole : isPatientProfile p = true) (hur : u ≠ r) (hr : r ≠ "")
    (hfd : f.s2cDoc = false) :
    (∀ d uid, s.getDoc r = some d → d.userId = some uid → uid ≠ "" →
       jsTrim uid ≠ "" → uid ∈ resolvePatientIds r u p s f) ∧
    resolvePatientIds "C1" "U1" patientProfile c7Store noFaults =
      ["C1", "U1"] := by
  refine ⟨?_, by decide⟩
  intro d uid hd huid hne htrim
  rw [mem_resolvePatientIds]
  refine ⟨Or.inr (Or.inr (Or.inr (Or.inr (Or.inl ⟨hrole, hur, hr, ?_⟩)))),
    hne, htrim⟩
  rw [hfd]
  exact mem_crossRefIds_of_doc hd huid hne f.s2cId f.s2cUid

/-- C7 witness: the theorem at the patient chart-id scenario. -/
theorem c7_witness :
    resolvePatientIds "C1" "U1" patientProfile c7Store noFaults =
      ["C1", "U1"] :=
  (c7_cross_reference "C1" "U1" patientProfile c7Store noFaults (by decide)
    (by decide) (by decide) rfl).2

/-! ## Cache lemmas -/

theorem find?_map_replace (c : Cache) (k : String) (v : CacheEntry)
    (h : c.any (fun p => p.1 == k) = true) :
    (c.map (fun p => if p.1 == k then (k, v) else p)).find?
        (fun p => p.1 == k) = some (k, v) := by
  induction c with
  | nil => simp at h
  | cons a as ih =>
    simp only [List.map_cons]
    by_cases ha : (a.1 == k) = true
    · rw [if_pos ha, @List.find?_cons_of_pos _ (fun p => p.1 == k) (k, v) _
        (by simp)]
    · rw [if_neg ha, @List.find?_cons_of_neg _ (fun p => p.1 == k) a _ ha]
      simp only [List.any_cons, Bool.or_eq_true] at h
      rcases h with h | h
      · exact absurd h ha
      · exact ih h

theorem cacheGet_cacheSet (c : Cache) (k : String) (v : CacheEntry) :
    cacheGet (cacheSet c k v) k = some v := by
  unfold cacheGet cacheSet
  by_cases h : c.any (fun p => p.1 == k)
  · rw [if_pos h, find?_map_replace c k v h]
    rfl
  · rw [if_neg h]
    have hnone : c.find? (fun p => p.1 == k) = none := by
      rw [List.find?_eq_none]
      intro x hx hpx
      exact h (List.any_eq_true.mpr ⟨x, hx, hpx⟩)
    rw [List.find?_append, hnone, Option.none_or,
      List.find?_cons_of_pos _ (by simp)]
    rfl

theorem find?_filter_of_found {α : Type} (l : List α) (q g : α → Bool)
    (a : α) (h : l.find? q = some a) (hg : g a = true) :
    (l.filter g).find? q = some a := by
  induction l with
  | nil => simp at h
  | cons b bs ih =>
    by_cases hb : q b = true
    · rw [List.find?_cons_of_pos _ hb] at h
      obtain rfl := Option.some.inj h
      rw [List.filter_cons, if_pos hg]
      exact List.find?_cons_of_pos _ hb
    · rw [List.find?_cons_of_neg _ hb] at h
      rw [List.filter_cons]
      split_ifs with hgb
      · rw [List.find?_cons_of_neg _ hb]
        exact ih h
      · exact ih h

theorem cacheGet_cacheSweep_of_fresh {c : Cache} {k : String} {now : Int}
    {e : CacheEntry} (h : cacheGet c k = some e)
    (hfresh : ¬(now - e.timestamp > CACHE_TTL)) :
    cacheGet (cacheSweep c now) k = some e := by
  unfold cacheGet at h ⊢
  unfold cacheSweep
  obtain ⟨a, ha, hae⟩ := Option.map_eq_some'.mp h
  rw [find?_filter_of_found c _ _ a ha (by simp [hae, hfresh])]
  simpa using hae

/-! ## Claim C8 -/

/-- C8: the cache refines the resolver.  (1) On a hit younger than the
TTL the cached ids are returned, the cache is unchanged, and the
resolver is not invoked.  (2) On a miss or a stale hit the resolver runs
and its exact result is stored with the current timestamp and returned.
(3) After any call that invoked the resolver, a second call within the
TTL returns the same ids from cache without invoking the resolver. -/
theorem c8_cache_refinement :
    (∀ (r u : String) (p : Profile) (s : ChartStore) (f : Faults)
       (c : Cache) (now : Int) (e : CacheEntry),
       cacheGet c (cacheKey u r) = some e →
       now - e.timestamp < CACHE_TTL →
       resolvePatientIdsCached r u p s f c now = (e.ids, c, false)) ∧
    (∀ (r u : String) (p : Profile) (s : ChartStore) (f : Faults)
       (c : Cache) (now : Int),
       (cacheGet c (cacheKey u r) = none ∨
        ∃ e, cacheGet c (cacheKey u r) = some e ∧
          ¬(now - e.timestamp < CACHE_TTL)) →
       resolvePatientIdsCached r u p s f c now =
         (resolvePatientIds r u p s f,
          (if (cacheSet c (cacheKey u r)
                ⟨resolvePatientIds r u p s f, now⟩).length > 1000 then
            cacheSweep (cacheSet c (cacheKey u r)
              ⟨resolvePatientIds r u p s f, now⟩) now
          else cacheSet c (cacheKey u r)
            ⟨resolvePatientIds r u p s f, now⟩),
          true)) ∧
    (∀ (r u : String) (p : Profile) (s : ChartStore) (f : Faults)
       (c : Cache) (t t' : Int),
       (resolvePatientIdsCached r u p s f c t).2.2 = true →
       t' - t < CACHE_TTL →
       resolvePatientIdsCached r u p s f
           (resolvePatientIdsCached r u p s f c t).2.1 t' =
         ((resolvePatientIdsCached r u p s f c t).1,
          (resolvePatientIdsCached r u p s f c t).2.1, false)) := by
  have hit : ∀ (r u : String) (p : Profile) (s : ChartStore) (f : Faults)
      (c : Cache) (now : Int) (e : CacheEntry),
      cacheGet c (cacheKey u r) = some e →
      now - e.timestamp < CACHE_TTL →
      resolvePatientIdsCached r u p s f c now = (e.ids, c, false) := by
    intro r u p s f c now e hget hlt
    simp only [resolvePatientIdsCached, hget, if_pos hlt]
  have store : ∀ (r u : String) (p : Profile) (s : ChartStore) (f : Faults)
      (c : Cache) (now : Int),
      (cacheGet c (cacheKey u r) = none ∨
       ∃ e, cacheGet c (cacheKey u r) = some e ∧
         ¬(now - e.timestamp < CACHE_TTL)) →
      resolvePatientIdsCached r u p s f c now =
        (resolvePatientIds r u p s f,
         (if (cacheSet c (cacheKey u r)
               ⟨resolvePatientIds r u p s f, now⟩).length > 1000 then
           cacheSweep (cacheSet c (cacheKey u r)
             ⟨resolvePatientIds r u p s f, now⟩) now
         else cacheSet c (cacheKey u r)
           ⟨resolvePatientIds r u p s f, now⟩),
         true) := by
    intro r u p s f c now hmiss
    rcases hmiss with hget | ⟨e, hget, hstale⟩
    · simp only [resolvePatientIdsCached, hget]
    · simp only [resolvePatientIdsCached, hget, if_neg hstale]
  refine ⟨hit, store, ?_⟩
  intro r u p s f c t t' hinv hlt
  have hmiss : cacheGet c (cacheKey u r) = none ∨
      ∃ e, cacheGet c (cacheKey u r) = some e ∧
        ¬(t - e.timestamp < CACHE_TTL) := by
    rcases hget : cacheGet c (cacheKey u r) with _ | e
    · exact Or.inl rfl
    · by_cases hfresh : t - e.timestamp < CACHE_TTL
      · exfalso
        have hf : (resolvePatientIdsCached r u p s f c t).2.2 = false := by
          rw [hit r u p s f c t e hget hfresh]
        rw [hinv] at hf
        exact Bool.true_eq_false.mp hf
      · exact Or.inr ⟨e, rfl, hfresh⟩
  have h1 := store r u p s f c t hmiss
  have hc1 : cacheGet (cacheSet c (cacheKey u r)
        ⟨resolvePatientIds r u p s f, t⟩) (cacheKey u r) =
      some ⟨resolvePatientIds r u p s f, t⟩ :=
    cacheGet_cacheSet c (cacheKey u r) ⟨resolvePatientIds r u p s f, t⟩
  have hc2 : cacheGet (resolvePatientIdsCached r u p s f c t).2.1
        (cacheKey u r) =
      some ⟨resolvePatientIds r u p s f, t⟩ := by
    rw [h1]
    by_cases hlen : (cacheSet c (cacheKey u r)
        ⟨resolvePatientIds r u p s f, t⟩).length > 1000
    · simp only [if_pos hlen]
      exact cacheGet_cacheSweep_of_fresh hc1
        (by simp only [CACHE_TTL]; omega)
    · simp only [if_neg hlen]
      exact hc1
  have h2 := hit r u p s f (resolvePatientIdsCached r u p s f c t).2.1 t'
    ⟨resolvePatientIds r u p s f, t⟩ hc2 hlt
  rw [h2, h1]

/-- C8 witness: a concrete fresh hit returns the cached ids without a
resolver run, applying the theorem's first component. -/
theorem c8_witness :
    resolvePatientIdsCached "R" "U" emptyProfile emptyStore noFaults
        [("U:R", ⟨["a"], 0⟩)] 1 =
      (["a"], [("U:R", ⟨["a"], 0⟩)], false) :=
  c8_cache_refinement.1 "R" "U" emptyProfile emptyStore noFaults
    [("U:R", ⟨["a"], 0⟩)] 1 ⟨["a"], 0⟩ (by decide) (by decide)

/-! ## Claim C9 -/

/-- C9: passive eviction.  On any call that stores (miss or stale hit):
if the post-store entry count exceeds 1000, the resulting cache is the
swept store and contains no entry older than the TTL; otherwise the
resulting cache is exactly the store, with nothing evicted. -/
theorem c9_cache_eviction
    (r u : String) (p : Profile) (s : ChartStore) (f : Faults)
    (c : Cache) (now : Int)
    (hmiss : cacheGet c (cacheKey u r) = none ∨
       ∃ e, cacheGet c (cacheKey u r) = some e ∧
         ¬(now - e.timestamp < CACHE_TTL)) :
    ((cacheSet c (cacheKey u r)
        ⟨resolvePatientIds r u p s f, now⟩).length > 1000 →
      (resolvePatientIdsCached r u p s f c now).2.1 =
        cacheSweep (cacheSet c (cacheKey u r)
          ⟨resolvePatientIds r u p s f, now⟩) now ∧
      ∀ kv ∈ (resolvePatientIdsCached r u p s f c now).2.1,
        ¬(now - kv.2.timestamp > CACHE_TTL)) ∧
    (¬((cacheSet c (cacheKey u r)
        ⟨resolvePatientIds r u p s f, now⟩).length > 1000) →
      (resolvePatientIdsCached r u p s f c now).2.1 =
        cacheSet c (cacheKey u r) ⟨resolvePatientIds r u p s f, now⟩) := by
  have h1 : resolvePatientIdsCached r u p s f c now =
      (resolvePatientIds r u p s f,
       (if (cacheSet c (cacheKey u r)
             ⟨resolvePatientIds r u p s f, now⟩).length > 1000 then
         cacheSweep (cacheSet c (cacheKey u r)
           ⟨resolvePatientIds r u p s f, now⟩) now
       else cacheSet c (cacheKey u r)
         ⟨resolvePatientIds r u p s f, now⟩),
       true) := by
    rcases hmiss with hget | ⟨e, hget, hstale⟩
    · simp only [resolvePatientIdsCached, hget]
    · simp only [resolvePatientIdsCached, hget, if_neg hstale]
  constructor
  · intro hlen
    rw [h1]
    simp only [if_pos hlen]
    refine ⟨trivial, ?_⟩
    intro kv hkv
    unfold cacheSweep at hkv
    have h2 := (List.mem_filter.mp hkv).2
    simpa using h2
  · intro hlen
    rw [h1]
    simp only [if_neg hlen]

/-- C9 witness: a store into a small cache evicts nothing. -/
theorem c9_witness :
    (resolvePatientIdsCached "R" "U" emptyProfile emptyStore noFaults
        [] 0).2.1 =
      cacheSet [] (cacheKey "U" "R")
        ⟨resolvePatientIds "R" "U" emptyProfile emptyStore noFaults, 0⟩ :=
  (c9_cache_eviction "R" "U" emptyProfile emptyStore noFaults [] 0
    (Or.inl rfl)).2 (by decide)

/-! ## Claim C10 -/

/-- C10: the patient-role test lower-cases the stringified role and
compares with `'patient'`; a missing role means staff.  Patient callers
never reach the staff block (its lookup outcomes are irrelevant to the
result), staff callers never reach the patient-only blocks, and for a
self-access patient the self-access block's ids do reach the result. -/
theorem c10_role_test :
    (∀ (role : String) (pid ph : Option String),
       jsToLower role = "patient" →
       isPatientProfile ⟨some role, pid, ph⟩ = true) ∧
    (∀ (role : String) (pid ph : Option String),
       jsToLower role ≠ "patient" →
       isPatientProfile ⟨some role, pid, ph⟩ = false) ∧
    (∀ pid ph : Option String, isPatientProfile ⟨none, pid, ph⟩ = false) ∧
    (∀ (r u : String) (p : Profile) (s : ChartStore) (f : Faults)
       (b1 b2 b3 : Bool), isPatientProfile p = true →
       resolvePatientIds r u p s
           { f with s3Doc := b1, s3Id := b2, s3Uid := b3 } =
         resolvePatientIds r u p s f) ∧
    (∀ (r u : String) (p : Profile) (s : ChartStore) (f : Faults)
       (b1 b2 b3 b4 b5 b6 b7 : Bool), isPatientProfile p = false →
       resolvePatientIds r u p s { f with phoneLookup := b1, s2a0 := b2, s2a := b3, s2b := b4, s2cDoc := b5, s2cId := b6, s2cUid := b7 } =
         resolvePatientIds r u p s f) ∧
    (∀ (r u : String) (p : Profile) (s : ChartStore) (f : Faults)
       (x : String), isPatientProfile p = true → u = r →
       x ∈ selfAccessIds s r f.s2a0 f.s2a f.s2b → x ≠ "" → jsTrim x ≠ "" →
       x ∈ resolvePatientIds r u p s f) := by
  refine ⟨?_, ?_, ?_, ?_, ?_, ?_⟩
  · intro role pid ph h
    simp [isPatientProfile, h]
  · intro role pid ph h
    simp [isPatientProfile, h]
  · intro pid ph
    rfl
  · intro r u p s f b1 b2 b3 hpt
    simp [resolvePatientIds, hpt]
  · intro r u p s f b1 b2 b3 b4 b5 b6 b7 hpt
    simp [resolvePatientIds, hpt]
  · intro r u p s f x hpt hur hmem hne htrim
    rw [mem_resolvePatientIds]
    exact ⟨Or.inr (Or.inr (Or.inr (Or.inl ⟨hpt, hur, hmem⟩))), hne, htrim⟩

/-- C10 witness: concrete role strings and a concrete staff-fault
irrelevance instance for a patient caller. -/
theorem c10_witness :
    isPatientProfile ⟨some "PATIENT", none, none⟩ = true ∧
    isPatientProfile ⟨some "Doctor", none, none⟩ = false ∧
    resolvePatientIds "A" "A" ⟨some "Patient", none, none⟩ emptyStore
        { noFaults with s3Doc := true, s3Id := true, s3Uid := true } =
      resolvePatientIds "A" "A" ⟨some "Patient", none, none⟩ emptyStore
        noFaults :=
  ⟨c10_role_test.1 "PATIENT" none none (by decide),
   c10_role_test.2.1 "Doctor" none none (by decide),
   c10_role_test.2.2.2.1 "A" "A" ⟨some "Patient", none, none⟩ emptyStore
     noFaults true true true (by decide)⟩

end PatientResolver
